import Mathlib

/-
Verification of the conversational MCP agent (src/ch3/13_use_prompt/agent.py and
client.py) against its natural-language specification.

The development shallowly embeds the Python code: dictionaries become ordered
association lists with Python insertion semantics, JSON decoding is an explicit
executable parser mirroring json.loads, Python exceptions become Except values
that are caught exactly where the source catches them, and the two interaction
loops of Agent.run become structurally recursive functions driven by scripted
environments (user input lines, LLM responses, tool executors).
-/

/- ===================== JSON values and json.loads ===================== -/

/-- Decoded JSON value, as produced by Python json.loads.  Numeric literals are
kept verbatim (no claim inspects a numeric value); Python dicts from JSON keep
insertion order, modelled by the field list. -/
inductive JValue where
  | jnull
  | jbool (b : Bool)
  | jnum (lit : String)
  | jstr (s : String)
  | jarr (items : List JValue)
  | jobj (fields : List (String × JValue))
deriving Repr, Inhabited

/-- Whitespace characters recognised by the JSON grammar. -/
def jsonIsWs (c : Char) : Bool :=
  c = ' ' || c = '\t' || c = '\n' || c = '\r'

/-- Skip leading JSON whitespace. -/
def jsonSkipWs : List Char → List Char
  | [] => []
  | c :: cs => if jsonIsWs c then jsonSkipWs cs else c :: cs

/-- Value of a hexadecimal digit, if any. -/
def jsonHexVal (c : Char) : Option Nat :=
  if '0' ≤ c ∧ c ≤ '9' then some (c.toNat - '0'.toNat)
  else if 'a' ≤ c ∧ c ≤ 'f' then some (c.toNat - 'a'.toNat + 10)
  else if 'A' ≤ c ∧ c ≤ 'F' then some (c.toNat - 'A'.toNat + 10)
  else none

/-- Parse the body of a JSON string literal, after the opening quote.  Escapes
follow json.loads strict mode: unescaped control characters are rejected, the
eight standard escapes plus \uXXXX are accepted (surrogate pairs are not
combined; no verified claim involves non-BMP text).  The accumulator holds the
decoded characters in reverse. -/
def jsonParseStringBody : Nat → List Char → List Char → Except String (String × List Char)
  | 0, _, _ => .error "out of fuel"
  | _ + 1, _, [] => .error "Unterminated string"
  | fuel + 1, acc, c :: cs =>
    if c = '"' then .ok (String.mk acc.reverse, cs)
    else if c = '\\' then
      match cs with
      | [] => .error "Unterminated string"
      | e :: cs2 =>
        if e = '"' then jsonParseStringBody fuel ('"' :: acc) cs2
        else if e = '\\' then jsonParseStringBody fuel ('\\' :: acc) cs2
        else if e = '/' then jsonParseStringBody fuel ('/' :: acc) cs2
        else if e = 'b' then jsonParseStringBody fuel (Char.ofNat 8 :: acc) cs2
        else if e = 'f' then jsonParseStringBody fuel (Char.ofNat 12 :: acc) cs2
        else if e = 'n' then jsonParseStringBody fuel ('\n' :: acc) cs2
        else if e = 'r' then jsonParseStringBody fuel ('\r' :: acc) cs2
        else if e = 't' then jsonParseStringBody fuel ('\t' :: acc) cs2
        else if e = 'u' then
          match cs2 with
          | h1 :: h2 :: h3 :: h4 :: cs3 =>
            match jsonHexVal h1, jsonHexVal h2, jsonHexVal h3, jsonHexVal h4 with
            | some a, some b, some c2, some d =>
              jsonParseStringBody fuel (Char.ofNat (((a * 16 + b) * 16 + c2) * 16 + d) :: acc) cs3
            | _, _, _, _ => .error "Invalid hex escape"
          | _ => .error "Invalid hex escape"
        else .error "Invalid escape"
    else if c.toNat < 32 then .error "Invalid control character"
    else jsonParseStringBody fuel (c :: acc) cs

/-- Longest leading run of decimal digits, with the rest of the input. -/
def jsonDigits : List Char → List Char × List Char
  | [] => ([], [])
  | c :: cs =>
    if c.isDigit then
      let p := jsonDigits cs
      (c :: p.fst, p.snd)
    else ([], c :: cs)

/-- Parse a JSON numeric literal (optional sign, integer part with no leading
zeros, optional fraction, optional exponent), returning the literal text.  A
malformed tail (for example a dot with no following digit) ends the literal
early; the stray character then fails in the surrounding context, matching the
failure behaviour of json.loads. -/
def jsonParseNumberLit (cs : List Char) : Except String (String × List Char) :=
  let sign : List Char × List Char :=
    match cs with
    | '-' :: r => (['-'], r)
    | _ => ([], cs)
  match sign.snd with
  | [] => .error "Expecting digit"
  | c :: rest =>
    if ¬ c.isDigit then .error "Expecting digit"
    else
      let intPart : List Char × List Char :=
        if c = '0' then ([c], rest) else jsonDigits sign.snd
      let frac : List Char × List Char :=
        match intPart.snd with
        | '.' :: d :: r =>
          if d.isDigit then
            let p := jsonDigits (d :: r)
            ('.' :: p.fst, p.snd)
          else ([], intPart.snd)
        | _ => ([], intPart.snd)
      let expPart : List Char × List Char :=
        match frac.snd with
        | e :: s :: r =>
          if e = 'e' ∨ e = 'E' then
            if s = '+' ∨ s = '-' then
              match r with
              | d :: _ =>
                if d.isDigit then
                  let p := jsonDigits r
                  (e :: s :: p.fst, p.snd)
                else ([], frac.snd)
              | [] => ([], frac.snd)
            else if s.isDigit then
              let p := jsonDigits (s :: r)
              (e :: p.fst, p.snd)
            else ([], frac.snd)
          else ([], frac.snd)
        | _ => ([], frac.snd)
      .ok (String.mk (sign.fst ++ intPart.fst ++ frac.fst ++ expPart.fst), expPart.snd)

/-- Match an expected literal keyword tail, returning the remaining input. -/
def jsonStripLit : List Char → List Char → Option (List Char)
  | [], cs => some cs
  | p :: ps, c :: cs => if c = p then jsonStripLit ps cs else none
  | _ :: _, [] => none

mutual

/-- Fueled recursive-descent parser for one JSON value, mirroring json.loads
(including its default acceptance of NaN, Infinity and -Infinity). -/
def jsonParseValue : Nat → List Char → Except String (JValue × List Char)
  | 0, _ => .error "out of fuel"
  | fuel + 1, cs =>
    match jsonSkipWs cs with
    | [] => .error "Expecting value"
    | c :: rest =>
      if c = '"' then
        match jsonParseStringBody (rest.length + 1) [] rest with
        | .error e => .error e
        | .ok p => .ok (.jstr p.fst, p.snd)
      else if c = '[' then
        match jsonSkipWs rest with
        | ']' :: r => .ok (.jarr [], r)
        | r => jsonParseArrayItems fuel r []
      else if c = '{' then
        match jsonSkipWs rest with
        | '}' :: r => .ok (.jobj [], r)
        | r => jsonParseObjectFields fuel r []
      else if c = 't' then
        match jsonStripLit ['r', 'u', 'e'] rest with
        | some r => .ok (.jbool true, r)
        | none => .error "Expecting value"
      else if c = 'f' then
        match jsonStripLit ['a', 'l', 's', 'e'] rest with
        | some r => .ok (.jbool false, r)
        | none => .error "Expecting value"
      else if c = 'n' then
        match jsonStripLit ['u', 'l', 'l'] rest with
        | some r => .ok (.jnull, r)
        | none => .error "Expecting value"
      else if c = 'N' then
        match jsonStripLit ['a', 'N'] rest with
        | some r => .ok (.jnum "NaN", r)
        | none => .error "Expecting value"
      else if c = 'I' then
        match jsonStripLit ['n', 'f', 'i', 'n', 'i', 't', 'y'] rest with
        | some r => .ok (.jnum "Infinity", r)
        | none => .error "Expecting value"
      else if c = '-' then
        match jsonStripLit ['I', 'n', 'f', 'i', 'n', 'i', 't', 'y'] rest with
        | some r => .ok (.jnum "-Infinity", r)
        | none =>
          match jsonParseNumberLit (c :: rest) with
          | .error e => .error e
          | .ok p => .ok (.jnum p.fst, p.snd)
      else if c.isDigit then
        match jsonParseNumberLit (c :: rest) with
        | .error e => .error e
        | .ok p => .ok (.jnum p.fst, p.snd)
      else .error "Expecting value"

/-- Items of a JSON array after the opening bracket (nonempty case). -/
def jsonParseArrayItems : Nat → List Char → List JValue → Except String (JValue × List Char)
  | 0, _, _ => .error "out of fuel"
  | fuel + 1, cs, acc =>
    match jsonParseValue fuel cs with
    | .error e => .error e
    | .ok p =>
      match jsonSkipWs p.snd with
      | ',' :: r => jsonParseArrayItems fuel r (acc ++ [p.fst])
      | ']' :: r => .ok (.jarr (acc ++ [p.fst]), r)
      | _ => .error "Expecting comma or close bracket"

/-- Fields of a JSON object after the opening brace (nonempty case). -/
def jsonParseObjectFields : Nat → List Char → List (String × JValue) → Except String (JValue × List Char)
  | 0, _, _ => .error "out of fuel"
  | fuel + 1, cs, acc =>
    match jsonSkipWs cs with
    | '"' :: r =>
      match jsonParseStringBody (r.length + 1) [] r with
      | .error e => .error e
      | .ok kp =>
        match jsonSkipWs kp.snd with
        | ':' :: r2 =>
          match jsonParseValue fuel r2 with
          | .error e => .error e
          | .ok vp =>
            match jsonSkipWs vp.snd with
            | ',' :: r3 => jsonParseObjectFields fuel r3 (acc ++ [(kp.fst, vp.fst)])
            | '}' :: r3 => .ok (.jobj (acc ++ [(kp.fst, vp.fst)]), r3)
            | _ => .error "Expecting comma or close brace"
        | _ => .error "Expecting colon"
    | _ => .error "Expecting property name"

end

/-- Embedding of Python json.loads: parse one JSON document and require the
whole input (up to trailing whitespace) to be consumed.  The fuel bound is
generous: each recursive step consumes input. -/
def jsonLoads (s : String) : Except String JValue :=
  match jsonParseValue (2 * s.length + 4) s.data with
  | .error e => .error e
  | .ok p =>
    match jsonSkipWs p.snd with
    | [] => .ok p.fst
    | _ => .error "Extra data"


/- ===================== Python dict and iteration semantics ===================== -/

/-- Python dict insertion: an existing key is updated in place (keeping its
position in insertion order), a new key is appended at the end. -/
def dictInsert {α : Type} (k : String) (v : α) : List (String × α) → List (String × α)
  | [] => [(k, v)]
  | (k2, v2) :: rest =>
    if k2 = k then (k, v) :: rest else (k2, v2) :: dictInsert k v rest

/-- Embedding of a Python dict comprehension over a list, keyed by f. -/
def dictOfList {α : Type} (f : α → String) (xs : List α) : List (String × α) :=
  xs.foldl (fun d x => dictInsert (f x) x d) []

/-- Keys of a modelled dict, in insertion order. -/
def dictKeys {α : Type} (d : List (String × α)) : List String :=
  d.map Prod.fst

/-- Python d.get-style lookup (first matching key; keys are unique). -/
def dictGet {α : Type} (d : List (String × α)) (k : String) : Option α :=
  (d.find? (fun p => p.fst = k)).map Prod.snd

/-- Python iteration `for r in x` over a decoded JSON value: arrays yield their
items, strings their characters, dicts their keys; other values raise
TypeError. -/
def pyIterate : JValue → Except String (List JValue)
  | .jarr xs => .ok xs
  | .jstr s => .ok (s.data.map (fun c => .jstr (String.mk [c])))
  | .jobj fs => .ok (fs.map (fun f => .jstr f.fst))
  | _ => .error "TypeError: object is not iterable"

/-- Python membership `r in d` for a dict with string keys: only a string can
match; hashable non-strings compare unequal to every key; unhashable values
(lists, dicts) raise TypeError. -/
def pyInKeys (keys : List String) : JValue → Except String Bool
  | .jstr s => .ok (keys.contains s)
  | .jnull => .ok false
  | .jbool _ => .ok false
  | .jnum _ => .ok false
  | .jarr _ => .error "TypeError: unhashable type"
  | .jobj _ => .error "TypeError: unhashable type"

/-- Lookup in a JSON-decoded object: Python dicts built by json.loads keep the
last occurrence of a duplicated key. -/
def jsonObjGet (fields : List (String × JValue)) (k : String) : Option JValue :=
  (fields.reverse.find? (fun f => f.fst = k)).map Prod.snd

/-- Python subscript p["name"]: KeyError when the key is missing from an
object, TypeError when the value is not an object. -/
def pySubscriptName : JValue → Except String JValue
  | .jobj fields =>
    match jsonObjGet fields "name" with
    | some v => .ok v
    | none => .error "KeyError: name"
  | _ => .error "TypeError: value is not subscriptable by string key"

/-- Embedding of the comprehension in Agent._select_resources, line 70:
`[r for r in selected_resources if r in self.available_resources]`.
A TypeError raised by the membership test aborts the whole comprehension. -/
def pyFilterResourceNames (keys : List String) : List JValue → Except String (List String)
  | [] => .ok []
  | v :: vs =>
    match pyInKeys keys v with
    | .error e => .error e
    | .ok b =>
      match pyFilterResourceNames keys vs with
      | .error e => .error e
      | .ok rest =>
        .ok (if b then
              (match v with
               | .jstr s => s :: rest
               | _ => rest)
             else rest)

/-- Embedding of the comprehension in Agent._select_prompts, line 125:
`[p for p in selected_prompts if p["name"] in self.available_prompts]`.
A KeyError or TypeError on any element aborts the whole comprehension. -/
def pyFilterPromptObjs (keys : List String) : List JValue → Except String (List JValue)
  | [] => .ok []
  | p :: ps =>
    match pySubscriptName p with
    | .error e => .error e
    | .ok nv =>
      match pyInKeys keys nv with
      | .error e => .error e
      | .ok b =>
        match pyFilterPromptObjs keys ps with
        | .error e => .error e
        | .ok rest => .ok (if b then p :: rest else rest)

/- ===================== Data model ===================== -/

/-- Resource descriptor as listed by the MCP server (mcp.types.Resource,
restricted to the fields agent.py reads). -/
structure MCPResource where
  name : String
  uri : String
  description : Option String
deriving Repr, DecidableEq, Inhabited

/-- Prompt descriptor as listed by the MCP server (mcp.types.Prompt, restricted
to the fields agent.py reads). -/
structure MCPPrompt where
  name : String
  description : Option String
deriving Repr, DecidableEq, Inhabited

/-- Mutable catalog state of the Agent: self.available_resources and
self.available_prompts, both Python dicts keyed by name. -/
structure AgentState where
  availableResources : List (String × MCPResource)
  availablePrompts : List (String × MCPPrompt)
deriving Repr, DecidableEq, Inhabited

/- ===================== Context Selector (Agent._select_resources / _select_prompts) ===================== -/

/-- Whitespace characters stripped by Python str.strip (ASCII subset; no
verified claim involves wider Unicode whitespace). -/
def pyIsSpace (c : Char) : Bool :=
  c = ' ' || c = '\t' || c = '\n' || c = '\r' || c = Char.ofNat 11 || c = Char.ofNat 12

/-- Embedding of Python str.strip(): drop leading and trailing whitespace. -/
def pyStrip (s : String) : String :=
  String.mk (((s.data.dropWhile pyIsSpace).reverse.dropWhile pyIsSpace).reverse)

/-- Substring heuristic of the selection parsers (agent.py lines 65-68 and
120-123): if the response text contains both an opening and a closing bracket,
take the slice from the first opening bracket through the last closing bracket
(Python text[start:end]; empty when the last closing bracket precedes the first
opening one); otherwise no JSON part is extracted. -/
def pyJsonPart (t : String) : Option String :=
  let cs := t.data
  if cs.contains '[' && cs.contains ']' then
    let start := (cs.takeWhile (fun c => c ≠ '[')).length
    let stop := cs.length - (cs.reverse.takeWhile (fun c => c ≠ ']')).length
    some (String.mk ((cs.take stop).drop start))
  else none


/-- Embedding of Agent._select_resources.  The llm argument models the
Anthropic messages.create call together with response.content[0].text: ok is
the returned text, error covers an API failure or empty content, both caught
by the except clause.  The second component counts LLM calls made (for the
empty-catalog claim).  Every Python exception path lands in the returned empty
list, so the function is total: nothing propagates to the caller. -/
def selectResourcesWithCount (catalog : List (String × MCPResource))
    (llm : Except String String) : List String × Nat :=
  if catalog.isEmpty then ([], 0)
  else
    match llm with
    | .error _ => ([], 1)
    | .ok raw =>
      let responseText := pyStrip raw
      match pyJsonPart responseText with
      | none => ([], 1)
      | some part =>
        match jsonLoads part with
        | .error _ => ([], 1)
        | .ok v =>
          match pyIterate v with
          | .error _ => ([], 1)
          | .ok items =>
            match pyFilterResourceNames (dictKeys catalog) items with
            | .error _ => ([], 1)
            | .ok names => (names, 1)

/-- Result of Agent._select_resources (discarding the call counter). -/
def selectResources (catalog : List (String × MCPResource))
    (llm : Except String String) : List String :=
  (selectResourcesWithCount catalog llm).fst

/-- Embedding of Agent._select_prompts; same shape as selectResourcesWithCount
but the decoded array holds objects filtered on their "name" field, and the
selected objects themselves are returned. -/
def selectPromptsWithCount (catalog : List (String × MCPPrompt))
    (llm : Except String String) : List JValue × Nat :=
  if catalog.isEmpty then ([], 0)
  else
    match llm with
    | .error _ => ([], 1)
    | .ok raw =>
      let responseText := pyStrip raw
      match pyJsonPart responseText with
      | none => ([], 1)
      | some part =>
        match jsonLoads part with
        | .error _ => ([], 1)
        | .ok v =>
          match pyIterate v with
          | .error _ => ([], 1)
          | .ok items =>
            match pyFilterPromptObjs (dictKeys catalog) items with
            | .error _ => ([], 1)
            | .ok ps => (ps, 1)

/-- Result of Agent._select_prompts (discarding the call counter). -/
def selectPrompts (catalog : List (String × MCPPrompt))
    (llm : Except String String) : List JValue :=
  (selectPromptsWithCount catalog llm).fst

/- ===================== Conversation model ===================== -/

/-- Content block of a conversation message, the closed union of the block
shapes agent.py produces or consumes: text blocks, base64 image blocks,
tool-invocation requests from the model, and tool-result blocks sent back. -/
inductive ContentBlock where
  | text (s : String)
  | image (mediaType : String) (data : String)
  | toolUse (id : String) (name : String) (input : String)
  | toolResult (toolUseId : String) (content : String)
deriving Repr, DecidableEq, Inhabited

/-- Role of a conversation message. -/
inductive ChatRole where
  | user
  | assistant
deriving Repr, DecidableEq, Inhabited

/-- One conversation message: a role and an ordered block list. -/
structure ChatMessage where
  role : ChatRole
  content : List ContentBlock
deriving Repr, DecidableEq, Inhabited

/-- Stop reason of a model response (agent.py only distinguishes "tool_use"
from everything else). -/
inductive StopReason where
  | toolUse
  | endTurn
  | other
deriving Repr, DecidableEq, Inhabited

/-- Model response: stop reason plus ordered content blocks. -/
structure ModelResponse where
  stopReason : StopReason
  content : List ContentBlock
deriving Repr, DecidableEq, Inhabited

/-- Test used by the list comprehension at agent.py line 329:
`block.type == "tool_use"`. -/
def isToolUse : ContentBlock → Bool
  | .toolUse _ _ _ => true
  | _ => false

/-- The ids of the tool-invocation-request blocks of a content list, in
response order. -/
def toolUseIds (blocks : List ContentBlock) : List String :=
  blocks.filterMap fun b =>
    match b with
    | .toolUse i _ _ => some i
    | _ => none

/-- The correlation ids of the tool-result blocks of a content list, in
order. -/
def toolResultIds (blocks : List ContentBlock) : List String :=
  blocks.filterMap fun b =>
    match b with
    | .toolResult i _ => some i
    | _ => none

/- ===================== Context Loader (Agent._load_selected_resources / _load_selected_prompts) ===================== -/

/-- One content part of a fetched resource: TextResourceContents or
BlobResourceContents from the MCP client. -/
inductive ResourceContent where
  | textContent (text : String)
  | blobContent (mimeType : String) (blob : String)
deriving Repr, DecidableEq, Inhabited

/-- Image media types recognised at agent.py lines 164-169. -/
def imageMimeTypes : List String :=
  ["image/jpeg", "image/png", "image/gif", "image/webp"]

/-- The tagged text produced for a text resource part (agent.py line 161). -/
def resourceTaggedText (name text : String) : String :=
  "[Resource: " ++ name ++ "]\n" ++ text

/-- Inner loop over the content parts of one fetched resource (agent.py lines
156-183).  The accumulator is the shared context_messages list.  A part with an
unsupported mime type reaches a print statement that reads a mimeType attribute
off the contents list itself, raising AttributeError; the surrounding except
catches it, so the remaining parts of that resource are dropped while blocks
already appended are kept. -/
def processResourceContents (name : String) :
    List ResourceContent → List ContentBlock → List ContentBlock
  | [], acc => acc
  | .textContent t :: rest, acc =>
      processResourceContents name rest (acc ++ [.text (resourceTaggedText name t)])
  | .blobContent mt b :: rest, acc =>
      if imageMimeTypes.contains mt then
        processResourceContents name rest (acc ++ [.image mt b])
      else acc

/-- Embedding of Agent._load_selected_resources.  fetch models
mcp_client.get_resource keyed by uri; a fetch error is caught per resource and
that resource is skipped (best-effort aggregation).  Names absent from the
catalog are skipped by the membership guard. -/
def loadSelectedResources (catalog : List (String × MCPResource))
    (fetch : String → Except String (List ResourceContent)) :
    List String → List ContentBlock → List ContentBlock
  | [], acc => acc
  | name :: rest, acc =>
    match dictGet catalog name with
    | none => loadSelectedResources catalog fetch rest acc
    | some res =>
      match fetch res.uri with
      | .error _ => loadSelectedResources catalog fetch rest acc
      | .ok contents =>
          loadSelectedResources catalog fetch rest (processResourceContents name contents acc)

/-- One rendered prompt message, as consumed by the text extraction at agent.py
lines 205-209: a message whose content has a text attribute, a message whose
content is a plain string, or anything else (skipped). -/
inductive PromptMessage where
  | withText (t : String)
  | plainStr (s : String)
  | other
deriving Repr, DecidableEq, Inhabited

/-- Text accumulation over the rendered messages of one prompt (agent.py lines
204-209): every contributing message appends its text plus a newline. -/
def extractPromptText : List PromptMessage → String → String
  | [], acc => acc
  | .withText t :: rest, acc => extractPromptText rest (acc ++ t ++ "\n")
  | .plainStr s :: rest, acc => extractPromptText rest (acc ++ s ++ "\n")
  | .other :: rest, acc => extractPromptText rest acc

/-- Python subscript p["arguments"], same semantics as pySubscriptName. -/
def pySubscriptArguments : JValue → Except String JValue
  | .jobj fields =>
    match jsonObjGet fields "arguments" with
    | some v => .ok v
    | none => .error "KeyError: arguments"
  | _ => .error "TypeError: value is not subscriptable by string key"

/-- Embedding of Agent._load_selected_prompts.  The selections are the decoded
JSON objects returned by selectPrompts.  The subscript prompt["name"] sits
outside the try block, so a malformed selection raises out of the whole loader
(Except.error); the render call and the subscript prompt["arguments"] sit
inside the try, so their failures skip just that prompt.  render models
mcp_client.load_prompt. -/
def loadSelectedPrompts (catalog : List (String × MCPPrompt))
    (render : String → JValue → Except String (List PromptMessage)) :
    List JValue → List String → Except String (List String)
  | [], acc => .ok acc
  | p :: rest, acc =>
    match pySubscriptName p with
    | .error e => .error e
    | .ok nv =>
      match pyInKeys (dictKeys catalog) nv with
      | .error e => .error e
      | .ok b =>
        if b then
          match nv with
          | .jstr name =>
            let rendered : Except String (List PromptMessage) :=
              match pySubscriptArguments p with
              | .error e => .error e
              | .ok args => render name args
            match rendered with
            | .error _ => loadSelectedPrompts catalog render rest acc
            | .ok msgs =>
              let t := pyStrip (extractPromptText msgs "")
              if t = "" then loadSelectedPrompts catalog render rest acc
              else loadSelectedPrompts catalog render rest
                     (acc ++ ["[Prompt: " ++ name ++ "]\n" ++ t])
          | _ => loadSelectedPrompts catalog render rest acc
        else loadSelectedPrompts catalog render rest acc

/-- The instructions string joined from the tagged prompt blocks (agent.py line
220). -/
def joinSystemInstructions (parts : List String) : String :=
  String.intercalate "\n\n" parts

/- ===================== Catalog refresh (Agent._refresh) ===================== -/

/-- Embedding of Agent._refresh.  The two fetches model
mcp_client.get_available_resources and get_available_prompts; each may raise.
The method mutates self.available_resources before fetching prompts, so the
returned state is the object state at the moment _refresh returns or raises;
the second component is the exception, if one escaped. -/
def refreshCatalogs (st : AgentState)
    (fetchResources : Except String (List MCPResource))
    (fetchPrompts : Except String (List MCPPrompt)) : AgentState × Option String :=
  match fetchResources with
  | .error e => (st, some e)
  | .ok rs =>
    let st1 : AgentState := ⟨dictOfList MCPResource.name rs, st.availablePrompts⟩
    match fetchPrompts with
    | .error e => (st1, some e)
    | .ok ps => (⟨st1.availableResources, dictOfList MCPPrompt.name ps⟩, none)

/- ===================== Conversation Orchestrator (Agent.run) ===================== -/

/-- Sequential execution of the extracted tool-invocation-request blocks
(agent.py lines 337-351).  exec models mcp_client.use_tool (name and a textual
rendering of the arguments, returning the list of result part strings); a
raised exception is not caught in the source and aborts the loop.  Each request
yields exactly one tool_result block carrying the request's id, result parts
joined with newlines.  Non-tool_use blocks never reach this function (the
caller filters), but are skipped for totality. -/
def executeTools (exec : String → String → Except String (List String)) :
    List ContentBlock → Except String (List ContentBlock)
  | [] => .ok []
  | .toolUse i n inp :: rest =>
    match exec n inp with
    | .error e => .error e
    | .ok parts =>
      match executeTools exec rest with
      | .error e => .error e
      | .ok rs => .ok (.toolResult i (String.intercalate "\n" parts) :: rs)
  | _ :: rest => executeTools exec rest

/-- The comprehension at agent.py lines 365-369: texts of the content blocks
that have a text attribute whose stripped text is non-empty (truthy), kept
verbatim. -/
def textBlocks (content : List ContentBlock) : List String :=
  content.filterMap fun b =>
    match b with
    | .text s => if pyStrip s = "" then none else some s
    | _ => none

/-- The fallback answer printed at agent.py line 376. -/
def noTextFallback : String := "[No text response available]"

/-- Outcome of one run of the inner tool-use loop (agent.py lines 297-380).
answered carries the conversation at loop exit, the displayed answer, and the
number of tool invocations executed.  llmError and toolError are the uncaught
exceptions of the messages.create call and of use_tool; both propagate out of
the loop with the conversation at that moment.  scriptExhausted marks the end
of the response script, an artifact of scripting the model (the source would
simply call the model again). -/
inductive CycleResult where
  | answered (conv : List ChatMessage) (answer : String) (toolCalls : Nat)
  | llmError (e : String) (conv : List ChatMessage)
  | toolError (e : String) (conv : List ChatMessage)
  | scriptExhausted (conv : List ChatMessage)
deriving Repr, DecidableEq, Inhabited

/-- Embedding of the inner while-True tool-use loop of Agent.run.  The script
lists the successive outcomes of the messages.create call; conv is the
conversation so far, n the number of tool invocations executed so far.  Each
iteration appends the assistant turn verbatim, then either executes the
requested tools and appends a single user turn of the results (continuing the
loop), or extracts the final answer and exits. -/
def toolLoop (exec : String → String → Except String (List String)) :
    List (Except String ModelResponse) → List ChatMessage → Nat → CycleResult
  | [], conv, _ => .scriptExhausted conv
  | .error e :: _, conv, _ => .llmError e conv
  | .ok resp :: rest, conv, n =>
    match resp.stopReason with
    | .toolUse =>
      match executeTools exec (resp.content.filter isToolUse) with
      | .error e => .toolError e (conv ++ [⟨.assistant, resp.content⟩])
      | .ok results =>
          toolLoop exec rest (conv ++ [⟨.assistant, resp.content⟩, ⟨.user, results⟩])
            (n + (resp.content.filter isToolUse).length)
    | _ =>
      .answered (conv ++ [⟨.assistant, resp.content⟩])
        ((textBlocks resp.content).headD noTextFallback) n

/- ===================== Outer session loop ===================== -/

/-- Scripted external environment for one entry of the outer read-eval loop:
the outcomes of the two selection LLM calls, the resource fetcher and prompt
renderer, the catalog fetches used if the line is the refresh command, the tool
executor, and the script of main-loop model responses. -/
structure CycleEnv where
  selResLLM : Except String String
  selPromptLLM : Except String String
  fetchResource : String → Except String (List ResourceContent)
  renderPrompt : String → JValue → Except String (List PromptMessage)
  refreshResources : Except String (List MCPResource)
  refreshPrompts : Except String (List MCPPrompt)
  toolExec : String → String → Except String (List String)
  responses : List (Except String ModelResponse)

/-- Embedding of Python str.lower for the command comparison at agent.py lines
258 and 263 (commands are ASCII; Char.toLower matches Python lower on
ASCII). -/
def pyLower (s : String) : String := String.mk (s.data.map Char.toLower)

/-- The tagged prompt blocks a query cycle assembles (agent.py lines 271-282):
select prompts against the prompt catalog, then load them. -/
def cycleSystemParts (st : AgentState) (env : CycleEnv) : Except String (List String) :=
  loadSelectedPrompts st.availablePrompts env.renderPrompt
    (selectPrompts st.availablePrompts env.selPromptLLM) []

/-- The initial conversation a query cycle builds (agent.py lines 269-291): one
user turn holding the literal query text followed by the loaded context
blocks. -/
def cycleInitialConv (st : AgentState) (env : CycleEnv) (line : String) : List ChatMessage :=
  [⟨.user, ContentBlock.text line ::
      loadSelectedResources st.availableResources env.fetchResource
        (selectResources st.availableResources env.selResLLM) []⟩]

/-- How the outer session loop ended.  goodbye is the normal exit; crashed
records an exception that propagated out of the while loop (ending the whole
session; the finally block still disconnects); inputsExhausted ends the
scripted input list; scriptExhausted surfaces a cycle whose model-response
script ran out. -/
inductive SessionOutcome where
  | goodbye
  | crashed (e : String)
  | inputsExhausted
  | scriptExhausted
deriving Repr, DecidableEq, Inhabited

/-- Embedding of the outer while-True read-eval loop of Agent.run (lines
253-380): pair each input line with its scripted environment; accumulate the
displayed answers in order.  A goodbye command exits; a refresh command re-runs
_refresh (whose exception would crash the session) and skips to the next input;
any other line runs a query cycle, whose uncaught exceptions (main LLM call,
tool execution, malformed selection reaching the prompt loader) crash the whole
session. -/
def sessionLoop : AgentState → List (String × CycleEnv) → List String →
    SessionOutcome × List String
  | _, [], answers => (.inputsExhausted, answers)
  | st, (line, env) :: rest, answers =>
    if pyLower line = "goodbye" then (.goodbye, answers)
    else if pyLower line = "refresh" then
      match refreshCatalogs st env.refreshResources env.refreshPrompts with
      | (_, some e) => (.crashed e, answers)
      | (st2, none) => sessionLoop st2 rest answers
    else
      match cycleSystemParts st env with
      | .error e => (.crashed e, answers)
      | .ok _ =>
        match toolLoop env.toolExec env.responses (cycleInitialConv st env line) 0 with
        | .answered _ ans _ => sessionLoop st rest (answers ++ [ans])
        | .llmError e _ => (.crashed e, answers)
        | .toolError e _ => (.crashed e, answers)
        | .scriptExhausted _ => (.scriptExhausted, answers)

/- ===================== Concrete fixtures for witnesses and counterexamples ===================== -/

/-- Agent state with both catalogs empty. -/
def emptyState : AgentState := ⟨[], []⟩

/-- A resource present before a refresh. -/
def resOld : MCPResource := ⟨"legacy-notes", "res://legacy", none⟩

/-- A resource delivered by a refresh. -/
def resNew : MCPResource := ⟨"math-constants", "res://math", some "Mathematical constants"⟩

/-- A prompt present before a refresh. -/
def promptOld : MCPPrompt := ⟨"calculation-helper", some "Calculation help"⟩

/-- Agent state before a mid-session refresh. -/
def stateBefore : AgentState := ⟨[("legacy-notes", resOld)], [("calculation-helper", promptOld)]⟩

/-- A prompt known to the catalog. -/
def goodPrompt : MCPPrompt := ⟨"good", some "A well-known prompt"⟩

/-- Prompt catalog holding only goodPrompt. -/
def promptCatalogOne : List (String × MCPPrompt) := [("good", goodPrompt)]

/-- Selection response text holding one well-formed prompt object. -/
def wellFormedSelText : String := "[\x7b\"name\": \"good\", \"arguments\": \x7b\x7d\x7d]"

/-- Same selection plus a malformed object missing the name key. -/
def mixedSelText : String := "[\x7b\"name\": \"good\", \"arguments\": \x7b\x7d\x7d, \x7b\x7d]"

/-- The decoded well-formed prompt selection object. -/
def goodSelObj : JValue := .jobj [("name", .jstr "good"), ("arguments", .jobj [])]

/-- A resource catalog holding one mathematical resource. -/
def resCatalogOne : List (String × MCPResource) := [("math-constants", resNew)]

/-- Fetcher returning one text content part for every uri. -/
def piFetch : String → Except String (List ResourceContent) := fun _ => .ok [.textContent "pi = 3.14159"]

/-- An LLM selection response with no brackets at all. -/
def proseOnlyText : String := "I would not use any of the provided resources for this question."

/-- Scripted environment for a query cycle whose main LLM call raises. -/
def crashEnv : CycleEnv :=
  CycleEnv.mk (.error "selection API down") (.error "selection API down")
    (fun _ => .ok []) (fun _ _ => .ok []) (.ok []) (.ok [])
    (fun _ _ => .ok []) [.error "APIError"]

/-- Scripted environment for a query cycle answering "4" with no tool use. -/
def answerEnv : CycleEnv :=
  CycleEnv.mk (.error "selection API down") (.error "selection API down")
    (fun _ => .ok []) (fun _ _ => .ok []) (.ok []) (.ok [])
    (fun _ _ => .ok []) [.ok (ModelResponse.mk .endTurn [.text "4"])]

/-- A model response requesting three tool invocations with ids A, B, C, with a
text block interleaved. -/
def threeToolResp : ModelResponse :=
  ⟨.toolUse, [.toolUse "A" "add" "2,2", .text "let me compute", .toolUse "B" "mul" "3,3",
              .toolUse "C" "neg" "7"]⟩

/-- Tool executor echoing the call it received. -/
def echoExec : String → String → Except String (List String) :=
  fun nm arg => .ok [nm ++ "(" ++ arg ++ ")"]

/-- The tool results echoExec produces for threeToolResp, in order. -/
def threeToolResults : List ContentBlock :=
  [.toolResult "A" "add(2,2)", .toolResult "B" "mul(3,3)", .toolResult "C" "neg(7)"]

/-- A model response requesting exactly one tool invocation. -/
def oneToolResp : ModelResponse := ⟨.toolUse, [.toolUse "toolu_A" "add" "2,2"]⟩

/-- A terminal model response carrying the text answer 4. -/
def finalResp : ModelResponse := ⟨.endTurn, [.text "4"]⟩

/-- Tool executor always returning the single part 4. -/
def constExec : String → String → Except String (List String) := fun _ _ => .ok ["4"]

/-- The initial user turn of the scripted 2+2 cycle. -/
def initialQuery : ChatMessage := ⟨.user, [.text "What is 2+2?"]⟩

/-- A terminal model response with no non-whitespace text block. -/
def blankResp : ModelResponse := ⟨.endTurn, [.text "   "]⟩

/- Sanity checks of the executable embedding on concrete inputs. -/

example : jsonLoads "[1, 2]" = .ok (.jarr [.jnum "1", .jnum "2"]) := rfl
example : jsonLoads " [\"a\", \"b\"] " = .ok (.jarr [.jstr "a", .jstr "b"]) := rfl
example : (jsonLoads "[1, 2").isOk = false := rfl
example : jsonLoads "\x7b\"name\": \"good\", \"arguments\": \x7b\x7d\x7d"
    = .ok (.jobj [("name", .jstr "good"), ("arguments", .jobj [])]) := rfl
example : (jsonLoads "not json").isOk = false := rfl
example : jsonLoads "[-1.5e3, true, null]"
    = .ok (.jarr [.jnum "-1.5e3", .jbool true, .jnull]) := rfl
example : pyJsonPart "sure: [\"a\"] thanks" = some "[\"a\"]" := rfl
example : pyJsonPart "no brackets" = none := rfl
example : pyJsonPart "] backwards [" = some "" := rfl

/- ===================== Helper lemmas ===================== -/

/-- A membership test that evaluated to True identifies a string key of the
catalog. -/
lemma pyInKeys_ok_true {keys : List String} {v : JValue}
    (h : pyInKeys keys v = .ok true) : ∃ s, v = .jstr s ∧ s ∈ keys := by
  cases v with
  | jstr s =>
    simp only [pyInKeys, Except.ok.injEq] at h
    exact ⟨s, rfl, by simpa using h⟩
  | jnull => simp [pyInKeys] at h
  | jbool b => simp [pyInKeys] at h
  | jnum l => simp [pyInKeys] at h
  | jarr xs => simp [pyInKeys] at h
  | jobj fs => simp [pyInKeys] at h

/-- Every name surviving the resource-selection comprehension is a catalog
key. -/
lemma pyFilterResourceNames_mem {keys : List String} :
    ∀ {items : List JValue} {names : List String},
      pyFilterResourceNames keys items = .ok names → ∀ r ∈ names, r ∈ keys := by
  intro items
  induction items with
  | nil =>
    intro names h r hr
    simp only [pyFilterResourceNames, Except.ok.injEq] at h
    subst h
    simp at hr
  | cons v vs ih =>
    intro names h r hr
    unfold pyFilterResourceNames at h
    cases hin : pyInKeys keys v with
    | error e => simp [hin] at h
    | ok b =>
      simp only [hin] at h
      cases hrest : pyFilterResourceNames keys vs with
      | error e => simp [hrest] at h
      | ok rest =>
        simp only [hrest, Except.ok.injEq] at h
        cases b with
        | false =>
          subst h
          exact ih hrest r hr
        | true =>
          obtain ⟨s, hv, hs⟩ := pyInKeys_ok_true hin
          subst hv
          simp only at h
          subst h
          rcases List.mem_cons.mp hr with h1 | h1
          · subst h1; exact hs
          · exact ih hrest r h1

/-- On an array of strings the resource-selection comprehension is exactly a
filter by catalog membership, preserving order. -/
lemma pyFilterResourceNames_strings (keys : List String) :
    ∀ names : List String,
      pyFilterResourceNames keys (names.map JValue.jstr)
        = .ok (names.filter (fun n => keys.contains n)) := by
  intro names
  induction names with
  | nil => rfl
  | cons n ns ih =>
    simp only [List.map_cons, pyFilterResourceNames, pyInKeys, ih, List.filter_cons]

/-- Every object surviving the prompt-selection comprehension carries a name
field that is a catalog key. -/
lemma pyFilterPromptObjs_mem {keys : List String} :
    ∀ {items ps : List JValue}, pyFilterPromptObjs keys items = .ok ps →
      ∀ p ∈ ps, ∃ s, pySubscriptName p = .ok (.jstr s) ∧ s ∈ keys := by
  intro items
  induction items with
  | nil =>
    intro ps h p hp
    simp only [pyFilterPromptObjs, Except.ok.injEq] at h
    subst h
    simp at hp
  | cons a as ih =>
    intro ps h p hp
    unfold pyFilterPromptObjs at h
    cases hsub : pySubscriptName a with
    | error e => simp [hsub] at h
    | ok nv =>
      simp only [hsub] at h
      cases hin : pyInKeys keys nv with
      | error e => simp [hin] at h
      | ok b =>
        simp only [hin] at h
        cases hrest : pyFilterPromptObjs keys as with
        | error e => simp [hrest] at h
        | ok rest =>
          simp only [hrest, Except.ok.injEq] at h
          cases b with
          | false =>
            subst h
            exact ih hrest p hp
          | true =>
            simp only [if_true] at h
            subst h
            rcases List.mem_cons.mp hp with h1 | h1
            · subst h1
              obtain ⟨s, hv, hs⟩ := pyInKeys_ok_true hin
              subst hv
              exact ⟨s, hsub, hs⟩
            · exact ih hrest p h1

/-- A malformed element anywhere in the decoded array aborts the whole
prompt-selection comprehension with an exception. -/
lemma pyFilterPromptObjs_error_of_malformed {keys : List String} :
    ∀ {items : List JValue} {p : JValue} {e : String}, p ∈ items →
      pySubscriptName p = .error e →
      ∃ e2, pyFilterPromptObjs keys items = .error e2 := by
  intro items
  induction items with
  | nil => intro p e hp _; simp at hp
  | cons a as ih =>
    intro p e hp hbad
    rcases List.mem_cons.mp hp with h1 | h1
    · subst h1
      exact ⟨e, by simp [pyFilterPromptObjs, hbad]⟩
    · cases hsub : pySubscriptName a with
      | error e2 => exact ⟨e2, by simp [pyFilterPromptObjs, hsub]⟩
      | ok nv =>
        cases hin : pyInKeys keys nv with
        | error e2 => exact ⟨e2, by simp [pyFilterPromptObjs, hsub, hin]⟩
        | ok b =>
          obtain ⟨e2, hrec⟩ := ih h1 hbad
          exact ⟨e2, by simp [pyFilterPromptObjs, hsub, hin, hrec]⟩

/-- The ids of the tool-use blocks of a filtered content list are the ids of
the whole list, in order. -/
lemma toolUseIds_filter (blocks : List ContentBlock) :
    toolUseIds (blocks.filter isToolUse) = toolUseIds blocks := by
  induction blocks with
  | nil => rfl
  | cons b bs ih =>
    cases b <;> simp [toolUseIds, isToolUse, List.filter_cons] at ih ⊢ <;> simpa using ih

/-- Successful sequential tool execution produces one result block per
request, correlation ids matching the request ids in order. -/
lemma executeTools_ok_ids (exec : String → String → Except String (List String)) :
    ∀ {blocks : List ContentBlock} {results : List ContentBlock},
      executeTools exec blocks = .ok results →
      toolResultIds results = toolUseIds blocks ∧
      results.length = (blocks.filter isToolUse).length := by
  intro blocks
  induction blocks with
  | nil =>
    intro results h
    simp only [executeTools, Except.ok.injEq] at h
    subst h
    simp [toolResultIds, toolUseIds]
  | cons b bs ih =>
    intro results h
    cases b with
    | toolUse i n inp =>
      unfold executeTools at h
      cases hx : exec n inp with
      | error e => simp [hx] at h
      | ok parts =>
        simp only [hx] at h
        cases hrest : executeTools exec bs with
        | error e => simp [hrest] at h
        | ok rs =>
          simp only [hrest, Except.ok.injEq] at h
          subst h
          obtain ⟨h1, h2⟩ := ih hrest
          constructor
          · simp [toolResultIds, toolUseIds, List.filterMap_cons] at h1 ⊢
            exact h1
          · simp [List.filter_cons, isToolUse, h2]
    | text s =>
      have : executeTools exec (.text s :: bs) = executeTools exec bs := rfl
      rw [this] at h
      obtain ⟨h1, h2⟩ := ih h
      refine ⟨by simpa [toolUseIds] using h1, by simpa [List.filter_cons, isToolUse] using h2⟩
    | image mt d =>
      have : executeTools exec (.image mt d :: bs) = executeTools exec bs := rfl
      rw [this] at h
      obtain ⟨h1, h2⟩ := ih h
      refine ⟨by simpa [toolUseIds] using h1, by simpa [List.filter_cons, isToolUse] using h2⟩
    | toolResult i c =>
      have : executeTools exec (.toolResult i c :: bs) = executeTools exec bs := rfl
      rw [this] at h
      obtain ⟨h1, h2⟩ := ih h
      refine ⟨by simpa [toolUseIds] using h1, by simpa [List.filter_cons, isToolUse] using h2⟩

/- ===================== Claim theorems ===================== -/

/-- C8: for every query, if the resource catalog is empty then
_select_resources returns the empty sequence without making any LLM call, and
likewise _select_prompts on an empty prompt catalog; the second component
counts the messages.create calls made. -/
theorem empty_catalog_selects_without_model_call (llmR llmP : Except String String) :
    selectResourcesWithCount [] llmR = ([], 0) ∧
    selectPromptsWithCount [] llmP = ([], 0) :=
  ⟨rfl, rfl⟩

/-- C7: a selection response text with no extractable bracketed part, or whose
bracketed part is not valid JSON, makes both _select_resources and
_select_prompts return the empty sequence.  No exception reaches the caller on
any input: both functions are total into plain lists, every raising Python
path having been caught into the empty result by construction. -/
theorem unparseable_selection_yields_empty
    (catR : List (String × MCPResource)) (catP : List (String × MCPPrompt)) (raw : String)
    (h : pyJsonPart (pyStrip raw) = none ∨
         ∃ part e, pyJsonPart (pyStrip raw) = some part ∧ jsonLoads part = .error e) :
    selectResources catR (.ok raw) = [] ∧ selectPrompts catP (.ok raw) = [] := by
  constructor
  · unfold selectResources selectResourcesWithCount
    by_cases hc : catR.isEmpty = true
    · simp [hc]
    · rcases h with h | ⟨part, e, hp, he⟩
      · simp [hc, h]
      · simp [hc, hp, he]
  · unfold selectPrompts selectPromptsWithCount
    by_cases hc : catP.isEmpty = true
    · simp [hc]
    · rcases h with h | ⟨part, e, hp, he⟩
      · simp [hc, h]
      · simp [hc, hp, he]

/-- Witness for C7 at a concrete bracketless selection response against
nonempty catalogs. -/
theorem unparseable_selection_yields_empty_witness :
    selectResources resCatalogOne (.ok proseOnlyText) = [] ∧
    selectPrompts promptCatalogOne (.ok proseOnlyText) = [] :=
  unparseable_selection_yields_empty resCatalogOne promptCatalogOne proseOnlyText
    (Or.inl rfl)

/-- C3: selection output never leaves the catalog.  Every name returned by
_select_resources is a key of the resource catalog; when the decoded bracketed
part is a JSON array of strings, the result is exactly that array filtered to
catalog keys, preserving the LLM-given order (so names outside the catalog
never appear); and every object returned by _select_prompts carries a name
field that is a key of the prompt catalog. -/
theorem selection_filters_to_catalog
    (catR : List (String × MCPResource)) (catP : List (String × MCPPrompt))
    (llmR llmP : Except String String) :
    (∀ r ∈ selectResources catR llmR, r ∈ dictKeys catR) ∧
    (∀ raw part (names : List String), llmR = .ok raw →
      pyJsonPart (pyStrip raw) = some part →
      jsonLoads part = .ok (.jarr (names.map JValue.jstr)) →
      catR.isEmpty = false →
      selectResources catR llmR = names.filter (fun n => (dictKeys catR).contains n)) ∧
    (∀ p ∈ selectPrompts catP llmP, ∃ s, pySubscriptName p = .ok (.jstr s) ∧ s ∈ dictKeys catP) := by
  refine ⟨?_, ?_, ?_⟩
  · intro r hr
    unfold selectResources selectResourcesWithCount at hr
    by_cases hc : catR.isEmpty = true
    · simp [hc] at hr
    · simp only [hc, if_false, Bool.false_eq_true] at hr
      cases llmR with
      | error e => simp at hr
      | ok raw =>
        cases hpart : pyJsonPart (pyStrip raw) with
        | none => simp [hpart] at hr
        | some part =>
          simp only [hpart] at hr
          cases hjson : jsonLoads part with
          | error e => simp [hjson] at hr
          | ok v =>
            simp only [hjson] at hr
            cases hit : pyIterate v with
            | error e => simp [hit] at hr
            | ok items =>
              simp only [hit] at hr
              cases hfil : pyFilterResourceNames (dictKeys catR) items with
              | error e => simp [hfil] at hr
              | ok names =>
                simp only [hfil] at hr
                exact pyFilterResourceNames_mem hfil r hr
  · intro raw part names hraw hpart hjson hc
    subst hraw
    unfold selectResources selectResourcesWithCount
    simp only [hc, if_false, Bool.false_eq_true, hpart, hjson, pyIterate,
      pyFilterResourceNames_strings]
  · intro p hp
    unfold selectPrompts selectPromptsWithCount at hp
    by_cases hc : catP.isEmpty = true
    · simp [hc] at hp
    · simp only [hc, if_false, Bool.false_eq_true] at hp
      cases llmP with
      | error e => simp at hp
      | ok raw =>
        cases hpart : pyJsonPart (pyStrip raw) with
        | none => simp [hpart] at hp
        | some part =>
          simp only [hpart] at hp
          cases hjson : jsonLoads part with
          | error e => simp [hjson] at hp
          | ok v =>
            simp only [hjson] at hp
            cases hit : pyIterate v with
            | error e => simp [hit] at hp
            | ok items =>
              simp only [hit] at hp
              cases hfil : pyFilterPromptObjs (dictKeys catP) items with
              | error e => simp [hfil] at hp
              | ok ps =>
                simp only [hfil] at hp
                exact pyFilterPromptObjs_mem hfil p hp

/-- Witness for C3: a selection proposing one catalog name and one hallucinated
name returns exactly the catalog name. -/
theorem selection_filters_to_catalog_witness :
    selectResources resCatalogOne (.ok "Here: [\"math-constants\", \"bogus\"]")
      = ["math-constants"] :=
  (selection_filters_to_catalog resCatalogOne promptCatalogOne
      (.ok "Here: [\"math-constants\", \"bogus\"]") (.ok wellFormedSelText)).2.1
    "Here: [\"math-constants\", \"bogus\"]" "[\"math-constants\", \"bogus\"]"
    ["math-constants", "bogus"] rfl rfl rfl rfl

/-- C9: loading a resource whose fetched content part is text produces a text
block holding the original text verbatim after the prepended tag prefix and
newline. -/
theorem resource_text_roundtrip
    (catalog : List (String × MCPResource)) (fetch : String → Except String (List ResourceContent))
    (name : String) (res : MCPResource) (t : String)
    (hres : dictGet catalog name = some res)
    (hfetch : fetch res.uri = .ok [.textContent t]) :
    resourceTaggedText name t = "[Resource: " ++ name ++ "]\n" ++ t ∧
    loadSelectedResources catalog fetch [name] []
      = [ContentBlock.text ("[Resource: " ++ name ++ "]\n" ++ t)] := by
  refine ⟨rfl, ?_⟩
  unfold loadSelectedResources
  simp only [hres, hfetch]
  rfl

/-- Witness for C9 at a concrete one-resource catalog and text fetch. -/
theorem resource_text_roundtrip_witness :
    loadSelectedResources resCatalogOne piFetch ["math-constants"] []
      = [ContentBlock.text "[Resource: math-constants]\npi = 3.14159"] :=
  (resource_text_roundtrip resCatalogOne piFetch "math-constants" resNew
    "pi = 3.14159" rfl rfl).2

/-- C10: a terminal (non tool_use) model response exits the tool-use loop
normally with the assistant turn appended.  If no content block carries
non-whitespace text (the code's strip test, which is also how the claim's
"non-empty" reads), the displayed answer is the literal fallback; otherwise it
is exactly the text of the first block passing that test, verbatim. -/
theorem final_answer_extraction (exec : String → String → Except String (List String))
    (resp : ModelResponse) (rest : List (Except String ModelResponse))
    (conv : List ChatMessage) (n : Nat)
    (hstop : resp.stopReason ≠ .toolUse) :
    (textBlocks resp.content = [] →
      toolLoop exec (.ok resp :: rest) conv n
        = .answered (conv ++ [⟨.assistant, resp.content⟩]) noTextFallback n) ∧
    (∀ t ts, textBlocks resp.content = t :: ts →
      toolLoop exec (.ok resp :: rest) conv n
        = .answered (conv ++ [⟨.assistant, resp.content⟩]) t n) := by
  constructor
  · intro h
    cases hs : resp.stopReason with
    | toolUse => exact absurd hs hstop
    | endTurn => simp [toolLoop, hs, h]
    | other => simp [toolLoop, hs, h]
  · intro t ts h
    cases hs : resp.stopReason with
    | toolUse => exact absurd hs hstop
    | endTurn => simp [toolLoop, hs, h]
    | other => simp [toolLoop, hs, h]

/-- Witness for C10 at a response whose only text block is whitespace: the
loop exits normally and displays the fallback answer. -/
theorem final_answer_extraction_witness :
    toolLoop constExec [.ok blankResp] [initialQuery] 0
      = .answered [initialQuery, ⟨.assistant, blankResp.content⟩] noTextFallback 0 :=
  (final_answer_extraction constExec blankResp [] [initialQuery] 0
    (by simp [blankResp])).1 rfl

/-- C1: on a tool_use response the loop executes the requests sequentially and
appends (after the assistant turn) exactly one user turn whose tool-result
blocks correlate one-to-one, in order, with the tool-invocation-request blocks
of the response: same count, same ids in the same order (and filtering keeps
response order, so those ids are the response-order ids of the whole
content). -/
theorem tool_results_correlate_in_order
    (exec : String → String → Except String (List String))
    (resp : ModelResponse) (rest : List (Except String ModelResponse))
    (conv : List ChatMessage) (n : Nat) (results : List ContentBlock)
    (hstop : resp.stopReason = .toolUse)
    (hexec : executeTools exec (resp.content.filter isToolUse) = .ok results) :
    toolResultIds results = toolUseIds resp.content ∧
    results.length = (resp.content.filter isToolUse).length ∧
    toolLoop exec (.ok resp :: rest) conv n
      = toolLoop exec rest (conv ++ [⟨.assistant, resp.content⟩, ⟨.user, results⟩])
          (n + (resp.content.filter isToolUse).length) := by
  obtain ⟨h1, h2⟩ := executeTools_ok_ids exec hexec
  have h2x : results.length = (resp.content.filter isToolUse).length := by
    simpa [List.filter_filter] using h2
  refine ⟨by rw [h1, toolUseIds_filter], h2x, ?_⟩
  simp [toolLoop, hstop, hexec]

/-- Witness for C1: three requests with ids A, B, C yield three results with
correlation ids A, B, C in order, in one appended user turn. -/
theorem tool_results_correlate_in_order_witness :
    toolResultIds threeToolResults = toolUseIds threeToolResp.content ∧
    threeToolResults.length = (threeToolResp.content.filter isToolUse).length ∧
    toolLoop echoExec [.ok threeToolResp] [initialQuery] 0
      = toolLoop echoExec [] [initialQuery, ⟨.assistant, threeToolResp.content⟩,
          ⟨.user, threeToolResults⟩] (0 + (threeToolResp.content.filter isToolUse).length) :=
  tool_results_correlate_in_order echoExec threeToolResp [] [initialQuery] 0
    threeToolResults rfl rfl

/-- C2: a script of one tool_use response carrying a single request followed by
one end_turn response makes the loop execute exactly one tool invocation and
exit with exactly one final answer, the conversation at exit being the four
turns user, assistant (tool_use), user (tool result), assistant (final). -/
theorem tool_loop_single_round
    (exec : String → String → Except String (List String))
    (r1 r2 : ModelResponse) (q : ChatMessage) (results : List ContentBlock)
    (h1 : r1.stopReason = .toolUse)
    (hone : (r1.content.filter isToolUse).length = 1)
    (hexec : executeTools exec (r1.content.filter isToolUse) = .ok results)
    (h2 : r2.stopReason = .endTurn) :
    toolLoop exec [.ok r1, .ok r2] [q] 0
      = .answered [q, ⟨.assistant, r1.content⟩, ⟨.user, results⟩, ⟨.assistant, r2.content⟩]
          ((textBlocks r2.content).headD noTextFallback) 1 := by
  simp [toolLoop, h1, h2, hexec, hone]

/-- Witness for C2: the scripted 2+2 cycle answers "4" after one tool call,
with a four-turn history. -/
theorem tool_loop_single_round_witness :
    toolLoop constExec [.ok oneToolResp, .ok finalResp] [initialQuery] 0
      = .answered [initialQuery, ⟨.assistant, oneToolResp.content⟩,
          ⟨.user, [.toolResult "toolu_A" "4"]⟩, ⟨.assistant, finalResp.content⟩] "4" 1 :=
  tool_loop_single_round constExec oneToolResp finalResp initialQuery
    [.toolResult "toolu_A" "4"] rfl rfl rfl rfl

/-- C4 counterexample: refreshing from a state with one old resource and one
old prompt, where the resource fetch succeeds with a new catalog and the
prompt fetch raises, leaves _refresh raising with the resource catalog already
replaced (not equal to its pre-refresh value) while the prompt catalog is
untouched — so a failing refresh does leave the catalogs partially updated,
refuting the all-or-nothing claim. -/
theorem refresh_not_atomic_counterexample :
    (refreshCatalogs stateBefore (.ok [resNew]) (.error "prompts fetch failed")).snd
      = some "prompts fetch failed" ∧
    (refreshCatalogs stateBefore (.ok [resNew]) (.error "prompts fetch failed")).fst.availableResources
      = [("math-constants", resNew)] ∧
    (refreshCatalogs stateBefore (.ok [resNew]) (.error "prompts fetch failed")).fst.availableResources
      ≠ stateBefore.availableResources ∧
    (refreshCatalogs stateBefore (.ok [resNew]) (.error "prompts fetch failed")).fst.availablePrompts
      = stateBefore.availablePrompts :=
  ⟨rfl, rfl, by decide, rfl⟩

/-- C4 amended: each catalog is individually replaced wholesale, but the
refresh is not atomic across the two catalogs: a failing resource fetch leaves
the state untouched, while a prompt fetch failing after a successful resource
fetch leaves the resource catalog already replaced and only the prompt catalog
at its pre-refresh value. -/
theorem refresh_per_catalog_wholesale (st : AgentState)
    (fr : Except String (List MCPResource)) (fp : Except String (List MCPPrompt)) :
    (∀ e, fr = .error e → refreshCatalogs st fr fp = (st, some e)) ∧
    (∀ rs e, fr = .ok rs → fp = .error e →
      refreshCatalogs st fr fp
        = (⟨dictOfList MCPResource.name rs, st.availablePrompts⟩, some e)) ∧
    (∀ rs ps, fr = .ok rs → fp = .ok ps →
      refreshCatalogs st fr fp
        = (⟨dictOfList MCPResource.name rs, dictOfList MCPPrompt.name ps⟩, none)) := by
  refine ⟨?_, ?_, ?_⟩
  · intro e h
    subst h
    rfl
  · intro rs e h1 h2
    subst h1
    subst h2
    rfl
  · intro rs ps h1 h2
    subst h1
    subst h2
    rfl

/-- Witness for the amended C4 at the concrete failing refresh. -/
theorem refresh_per_catalog_wholesale_witness :
    refreshCatalogs stateBefore (.ok [resNew]) (.error "prompts fetch failed")
      = (⟨[("math-constants", resNew)], [("calculation-helper", promptOld)]⟩,
         some "prompts fetch failed") :=
  (refresh_per_catalog_wholesale stateBefore (.ok [resNew])
    (.error "prompts fetch failed")).2.1 [resNew] "prompts fetch failed" rfl rfl

/-- C5 counterexample: a session whose first query cycle hits an LLM error in
the main answer-generation call crashes the whole session with that error; the
second scripted input, which on its own (second conjunct) would produce the
answer 4 and then exit on goodbye, is never reached and no answer is produced.
This refutes the claim that the interactive loop continues to accept the next
input after a main-call failure. -/
theorem main_llm_error_crashes_session_counterexample :
    sessionLoop emptyState [("q1", crashEnv), ("What is 2+2?", answerEnv)] []
      = (.crashed "APIError", []) ∧
    sessionLoop emptyState [("What is 2+2?", answerEnv), ("goodbye", answerEnv)] []
      = (.goodbye, ["4"]) :=
  ⟨rfl, rfl⟩

/-- C5 amended: an exception raised by the main answer-generation LLM call
propagates out of the query cycle and terminates the whole interactive session
(the source has no per-cycle handler; only the finally-block disconnect still
runs); the remaining inputs are never processed and no further answers are
produced. -/
theorem main_llm_error_ends_session
    (st : AgentState) (line : String) (env : CycleEnv)
    (rest : List (String × CycleEnv)) (answers : List String)
    (e : String) (conv : List ChatMessage) (sysParts : List String)
    (hg : pyLower line ≠ "goodbye") (hr : pyLower line ≠ "refresh")
    (hsys : cycleSystemParts st env = .ok sysParts)
    (htool : toolLoop env.toolExec env.responses (cycleInitialConv st env line) 0
      = .llmError e conv) :
    sessionLoop st ((line, env) :: rest) answers = (.crashed e, answers) := by
  unfold sessionLoop
  rw [if_neg hg, if_neg hr]
  simp [hsys, htool]

/-- Witness for the amended C5 at the concrete crashing environment. -/
theorem main_llm_error_ends_session_witness :
    sessionLoop emptyState [("q1", crashEnv), ("goodbye", answerEnv)] []
      = (.crashed "APIError", []) :=
  main_llm_error_ends_session emptyState "q1" crashEnv [("goodbye", answerEnv)] []
    "APIError" [⟨.user, [.text "q1"]⟩] [] (by decide) (by decide) rfl rfl

/-- C6 counterexample: with the prompt catalog holding the name good, a decoded
selection array holding one well-formed object (name good, in the catalog)
plus one malformed object missing the name key returns the empty selection:
the well-formed object is not kept (first conjunct), although the same
well-formed object alone is returned when no malformed sibling is present
(second conjunct).  The malformed object is thus not excluded individually —
it drops the whole selection. -/
theorem select_prompts_malformed_counterexample :
    selectPrompts promptCatalogOne (.ok mixedSelText) = [] ∧
    selectPrompts promptCatalogOne (.ok wellFormedSelText) = [goodSelObj] :=
  ⟨rfl, rfl⟩

/-- C6 amended: a malformed object (missing the name key) anywhere in the
decoded selection array makes _select_prompts drop the whole selection and
return the empty list — well-formed objects in the same array are lost with
it — while no exception reaches the caller (the KeyError is caught by the
enclosing except clause). -/
theorem select_prompts_malformed_drops_whole_selection
    (catalog : List (String × MCPPrompt)) (raw part : String) (items : List JValue)
    (p : JValue) (e : String)
    (hne : catalog.isEmpty = false)
    (hpart : pyJsonPart (pyStrip raw) = some part)
    (hjson : jsonLoads part = .ok (.jarr items))
    (hp : p ∈ items)
    (hbad : pySubscriptName p = .error e) :
    selectPrompts catalog (.ok raw) = [] := by
  obtain ⟨e2, hfil⟩ :=
    @pyFilterPromptObjs_error_of_malformed (dictKeys catalog) items p e hp hbad
  unfold selectPrompts selectPromptsWithCount
  simp [hne, hpart, hjson, pyIterate, hfil]

/-- Witness for the amended C6 at the concrete mixed selection text. -/
theorem select_prompts_malformed_drops_whole_selection_witness :
    selectPrompts promptCatalogOne (.ok mixedSelText) = [] :=
  select_prompts_malformed_drops_whole_selection promptCatalogOne mixedSelText
    mixedSelText [goodSelObj, .jobj []] (.jobj []) "KeyError: name"
    rfl rfl rfl (by simp) rfl
